import Mathlib

/-!
Verification of the cv_builder rendering and build pipeline.

The Python sources `render_cv.py` and `chief_render_cv.py` are shallowly
embedded below: the pure escaping function becomes a Lean function on
character lists, filesystem and subprocess effects become explicit state
passing over a small filesystem model, and fallible operations return
`Except`.
-/

namespace CvBuilder

/-! ## Escaper (`latex_escape` in `render_cv.py` lines 39-63 and
`chief_render_cv.py` lines 39-57)

The Python code maps each character of the stringified input through the
fixed `replacements` dict, leaving unlisted characters unchanged, and
joins the results. -/

/-- Replacement for a backslash: the characters of `\textbackslash{}`. -/
def bsSeq : List Char :=
  ['\\', 't', 'e', 'x', 't', 'b', 'a', 'c', 'k', 's', 'l', 'a', 's', 'h', '{', '}']

/-- Replacement for an ampersand: the characters of `\&`. -/
def ampSeq : List Char := ['\\', '&']

/-- Replacement for a percent sign: the characters of `\%`. -/
def percentSeq : List Char := ['\\', '%']

/-- Replacement for a dollar sign: the characters of `\$`. -/
def dollarSeq : List Char := ['\\', '$']

/-- Replacement for a hash: the characters of `\#`. -/
def hashSeq : List Char := ['\\', '#']

/-- Replacement for an underscore: the characters of `\_`. -/
def underscoreSeq : List Char := ['\\', '_']

/-- Replacement for an open brace: the characters of `\{`. -/
def lbraceSeq : List Char := ['\\', '{']

/-- Replacement for a close brace: the characters of `\}`. -/
def rbraceSeq : List Char := ['\\', '}']

/-- Replacement for a tilde: the characters of `\textasciitilde{}`. -/
def tildeSeq : List Char :=
  ['\\', 't', 'e', 'x', 't', 'a', 's', 'c', 'i', 'i', 't', 'i', 'l', 'd', 'e', '{', '}']

/-- Replacement for a caret: the characters of `\textasciicircum{}`. -/
def caretSeq : List Char :=
  ['\\', 't', 'e', 'x', 't', 'a', 's', 'c', 'i', 'i', 'c', 'i', 'r', 'c', 'u', 'm', '{', '}']

/-- The `replacements.get(ch, ch)` lookup of `latex_escape`: the fixed
substitution table, defaulting to the character itself. -/
def escapeChar (c : Char) : List Char :=
  if c = '\\' then bsSeq
  else if c = '&' then ampSeq
  else if c = '%' then percentSeq
  else if c = '$' then dollarSeq
  else if c = '#' then hashSeq
  else if c = '_' then underscoreSeq
  else if c = '{' then lbraceSeq
  else if c = '}' then rbraceSeq
  else if c = '~' then tildeSeq
  else if c = '^' then caretSeq
  else [c]

/-- The single pass `"".join(replacements.get(ch, ch) for ch in s)` of
`latex_escape`, on the character list of the stringified input. -/
def escapeList (s : List Char) : List Char :=
  (s.map escapeChar).flatten

/-- `latex_escape`: `None` becomes the empty string, any string input is
escaped character by character. -/
def latex_escape : Option (List Char) → List Char
  | none => []
  | some s => escapeList s

/-- The ten LaTeX-special characters handled by `latex_escape`. -/
def specialChar (c : Char) : Bool :=
  c = '\\' || c = '&' || c = '%' || c = '$' || c = '#' ||
    c = '_' || c = '{' || c = '}' || c = '~' || c = '^'

/-! ### Claim-side model for the substitution-priority claim (C1)

The claim describes the escaper as a sequence of substitution passes:
backslash first, then the other nine characters, where text introduced by
an earlier substitution is never re-examined by a later one.  `Frag.done`
marks already-substituted output, which every later pass leaves alone. -/

/-- A fragment of partially substituted text: `raw` characters are still
subject to later substitution passes, `done` chunks were produced by an
earlier substitution and are never re-escaped. -/
inductive Frag where
  | raw : Char → Frag
  | done : List Char → Frag
deriving DecidableEq

/-- One substitution pass of the claim: replace every not-yet-substituted
occurrence of `c` by the chunk `rep`, leaving already-substituted chunks
untouched. -/
def subPass (c : Char) (rep : List Char) : List Frag → List Frag :=
  List.map fun f =>
    match f with
    | Frag.raw a => if a = c then Frag.done rep else Frag.raw a
    | Frag.done s => Frag.done s

/-- Flatten the fragments back into plain text. -/
def flattenFrags (l : List Frag) : List Char :=
  (l.map fun f =>
    match f with
    | Frag.raw a => [a]
    | Frag.done s => s).flatten

/-- The ten substitution passes in the claim's priority order: the
backslash pass is applied first (innermost), then the ampersand, percent,
dollar, hash, underscore, open-brace, close-brace, tilde and caret
passes. -/
def applyPasses (l : List Frag) : List Frag :=
  subPass '^' caretSeq <| subPass '~' tildeSeq <| subPass '}' rbraceSeq <|
    subPass '{' lbraceSeq <| subPass '_' underscoreSeq <| subPass '#' hashSeq <|
      subPass '$' dollarSeq <| subPass '%' percentSeq <| subPass '&' ampSeq <|
        subPass '\\' bsSeq l

/-- Claim-side definition of the escaper, following the stated priority:
the substitution passes of `applyPasses` run over the input, with
substituted chunks protected from re-escaping, and the result is
flattened back to text. -/
def escapeSpecSequential (s : List Char) : List Char :=
  flattenFrags (applyPasses (s.map Frag.raw))

/-! ### Claim-side predicate for the no-unescaped-special-characters claim (C2)

A string has no unescaped special character when it decomposes into blocks
each of which is either a single non-special character or one of the ten
escape sequences the escaper emits: every occurrence of a special
character then lies inside an emitted escape sequence. -/

/-- The ten escape sequences the escaper emits. -/
def escSeqs : List (List Char) :=
  [bsSeq, ampSeq, percentSeq, dollarSeq, hashSeq, underscoreSeq,
    lbraceSeq, rbraceSeq, tildeSeq, caretSeq]

/-- `NoUnescaped t` holds when `t` is a concatenation of non-special
characters and whole emitted escape sequences, so every special character
in `t` is part of one of the fixed escape sequences. -/
inductive NoUnescaped : List Char → Prop where
  | nil : NoUnescaped []
  | plain {c : Char} (hc : specialChar c = false) {t : List Char}
      (ht : NoUnescaped t) : NoUnescaped (c :: t)
  | esc {e : List Char} (he : e ∈ escSeqs) {t : List Char}
      (ht : NoUnescaped t) : NoUnescaped (e ++ t)

/-! ## Filesystem model

The build and asset functions act on a real filesystem; here the
filesystem is explicit state: a list of existing directories and a list
of files, each file keyed by its directory and its base name.  File
contents are either text (written with an encoding) or raw bytes. -/

/-- Contents of a file: text or raw bytes. -/
inductive FileData where
  | text : String → FileData
  | bin : List Nat → FileData
deriving DecidableEq

/-- One file on disk: directory, base name, contents. -/
structure FEntry where
  dir : String
  name : String
  contents : FileData
deriving DecidableEq

/-- The filesystem state: existing directories and files. -/
structure FS where
  dirs : List String
  files : List FEntry
deriving DecidableEq

/-- Look up a file's contents; the most recent write is found first. -/
def lookupFile (fs : FS) (dir name : String) : Option FileData :=
  (fs.files.find? fun e => e.dir == dir && e.name == name).map (·.contents)

/-- Write a file (creating or overwriting it). -/
def writeFile (fs : FS) (dir name : String) (d : FileData) : FS :=
  { fs with files := ⟨dir, name, d⟩ :: fs.files }

/-- Does a directory exist? (`os.path.isdir`). -/
def dirExists (fs : FS) (dir : String) : Bool :=
  fs.dirs.contains dir

/-- `shutil.rmtree`: remove a directory and every file inside it. -/
def rmtree (fs : FS) (dir : String) : FS :=
  { dirs := fs.dirs.filter fun d => d != dir,
    files := fs.files.filter fun e => e.dir != dir }

/-! ## Build Orchestrator (`render_and_compile` in `render_cv.py`
lines 88-115; `render_and_compile_chief` shares the same build phase,
`chief_render_cv.py` lines 134-182)

The rendered source text is the input.  The effects the code cannot
determine are supplied by an environment: the unique directory name
returned by `tempfile.mkdtemp`, and the compiler subprocess's exit
status, combined captured stdout+stderr, and produced PDF (if any). -/

/-- The observable behaviour of one `latexmk` subprocess invocation:
exit status, combined stdout+stderr text, and whether/what `main.pdf`
it leaves in the working directory. -/
structure CompilerRun where
  returncode : Int
  output : String
  producesPdf : Bool
  pdfBytes : List Nat
deriving DecidableEq

/-- Environment of one build: the fresh directory `tempfile.mkdtemp`
returns and the compiler subprocess's behaviour in it. -/
structure BuildEnv where
  freshDir : String
  run : CompilerRun
deriving DecidableEq

/-- The result record returned on success (`RenderResult`). -/
structure RenderResult where
  pdf_bytes : List Nat
  tex_str : String
  workdir : String
deriving DecidableEq

/-- Outcome of a build: success, a compiler failure (`RuntimeError` from
`_run`, re-raised with the workdir appended), or the internal-invariant
failure when `main.pdf` is missing after a zero exit status. -/
inductive BuildOutcome where
  | ok : RenderResult → BuildOutcome
  | buildError : String → BuildOutcome
  | invariantError : String → BuildOutcome
deriving DecidableEq

/-- The fixed `latexmk` argument list (`render_cv.py` lines 97-106). -/
def latexmkCmd : List String :=
  ["latexmk", "-lualatex", "-interaction=nonstopmode", "-halt-on-error", "main.tex"]

/-- The `RuntimeError` message `_run` raises on a non-zero exit status
(`render_cv.py` lines 30-36). -/
def runFailureMessage (cmd : List String) (out : String) : String :=
  "Command failed:\n" ++ String.intercalate " " cmd ++
    "\n\n---- Build output ----\n" ++ out

/-- The message of the invariant failure raised when the compiler exits
zero but `main.pdf` is absent (`render_cv.py` line 112). -/
def missingPdfMessage : String :=
  "Build succeeded but main.pdf was not created (unexpected)."

/-- The build phase of `render_and_compile`: make a fresh working
directory, write the rendered source to `main.tex` in it, run `latexmk`
there, and either fail with the captured log plus the workdir path, fail
with the invariant error, or return the result record.  Besides the
outcome it returns the final filesystem and the list of subprocess
invocations (command, working directory) performed. -/
def render_and_compile (tex_str : String) (env : BuildEnv) (fs : FS) :
    BuildOutcome × FS × List (List String × String) :=
  let workdir := env.freshDir
  let fs1 : FS := { fs with dirs := workdir :: fs.dirs }
  let fs2 := writeFile fs1 workdir "main.tex" (FileData.text tex_str)
  let fs3 :=
    if env.run.producesPdf then
      writeFile fs2 workdir "main.pdf" (FileData.bin env.run.pdfBytes)
    else fs2
  let calls := [(latexmkCmd, workdir)]
  let outcome :=
    if env.run.returncode ≠ 0 then
      BuildOutcome.buildError
        (runFailureMessage latexmkCmd env.run.output ++ "\n\nTemp build folder: " ++ workdir)
    else if (lookupFile fs3 workdir "main.pdf").isSome then
      BuildOutcome.ok
        { pdf_bytes :=
            match lookupFile fs3 workdir "main.pdf" with
            | some (FileData.bin b) => b
            | _ => []
          tex_str := tex_str
          workdir := workdir }
    else BuildOutcome.invariantError missingPdfMessage
  (outcome, fs3, calls)

/-! ## Workdir Lifecycle Manager (`cleanup_workdir`, `render_cv.py`
lines 118-121 and `chief_render_cv.py` lines 185-187)

`shutil.rmtree(..., ignore_errors=True)` swallows deletion errors; the
environment flag `deleteFails` says whether the deletion attempt errors
(in which case nothing observable need change but no exception escapes). -/

/-- `cleanup_workdir`: delete the directory tree if the argument is
non-empty and an existing directory; errors during deletion are
swallowed (`ignore_errors=True`), so the function always returns
normally. -/
def cleanup_workdir (fs : FS) (workdir : String) (deleteFails : Bool) :
    Except String FS :=
  if workdir ≠ "" && dirExists fs workdir then
    Except.ok (if deleteFails then fs else rmtree fs workdir)
  else
    Except.ok fs

/-- Is an `Except` result a normal return? -/
def exceptOk {α β : Type} : Except α β → Bool
  | Except.ok _ => true
  | Except.error _ => false

/-! ## Asset Resolver (`_resolve_asset_path`, `chief_render_cv.py`
lines 72-105)

Path resolution touches the real filesystem through `Path.exists`,
`Path.is_absolute`, `Path.resolve` and the `/` join; existence and
symlink/`..` resolution are supplied as an oracle, joining follows
`pathlib` (joining onto an absolute path keeps the absolute path). -/

/-- Path-level environment: which paths exist, and what `Path.resolve`
normalises a path to. -/
structure PathEnv where
  pathExists : String → Bool
  resolvePath : String → String

/-- `Path.is_absolute` for POSIX paths. -/
def isAbsolute (p : String) : Bool :=
  p.startsWith "/"

/-- `pathlib`'s `/` join: joining onto an absolute path yields the
absolute path itself. -/
def pathJoin (base p : String) : String :=
  if isAbsolute p then p else base ++ "/" ++ p

/-- `_resolve_asset_path`: try the explicit path (absolute, then
relative to the project root, then relative to the template directory),
then the default name in the template directory, then the default name
in the project root; return the first that exists, else `none`.  A falsy
(empty or absent) explicit path skips the explicit candidates. -/
def resolve_asset_path (pe : PathEnv) (maybe_path : Option String)
    (template_dir project_root default_name : String) : Option String :=
  let explicitResult :=
    match maybe_path with
    | some p =>
      if p ≠ "" then
        if isAbsolute p && pe.pathExists p then some p
        else
          let p1 := pe.resolvePath (pathJoin project_root p)
          if pe.pathExists p1 then some p1
          else
            let p2 := pe.resolvePath (pathJoin template_dir p)
            if pe.pathExists p2 then some p2 else none
      else none
    | none => none
  match explicitResult with
  | some r => some r
  | none =>
    let p3 := pe.resolvePath (pathJoin template_dir default_name)
    if pe.pathExists p3 then some p3
    else
      let p4 := pe.resolvePath (pathJoin project_root default_name)
      if pe.pathExists p4 then some p4 else none

/-- Claim-side candidate list, in the order the claim states: explicit
absolute path, explicit path under the project root, explicit path under
the template directory, default name in the template directory, default
name in the project root. -/
def assetCandidates (pe : PathEnv) (maybe_path : Option String)
    (template_dir project_root default_name : String) : List String :=
  (match maybe_path with
   | some p =>
     if p ≠ "" then
       (if isAbsolute p then [p] else []) ++
         [pe.resolvePath (pathJoin project_root p),
          pe.resolvePath (pathJoin template_dir p)]
     else []
   | none => []) ++
    [pe.resolvePath (pathJoin template_dir default_name),
     pe.resolvePath (pathJoin project_root default_name)]

/-! ## Asset copying (`_copy_asset_to_workdir`, `chief_render_cv.py`
lines 60-69)

A resolved asset path is a directory/base-name pair; `shutil.copyfile`
reads the source bytes and writes them under the base name in the
working directory, overwriting any file of that name. -/

/-- `_copy_asset_to_workdir`: copy the asset into the working directory
under its base name and return that base name; copying an unreadable
source is an I/O error. -/
def copy_asset_to_workdir (fs : FS) (assetDir assetName workdir : String) :
    Except String (FS × String) :=
  match lookupFile fs assetDir assetName with
  | none => Except.error ("cannot read " ++ assetDir ++ "/" ++ assetName)
  | some d => Except.ok (writeFile fs workdir assetName d, assetName)

/-! ## Defensive copy of the data record (`render_and_compile_chief`,
`chief_render_cv.py` lines 152-156)

The caller's record is a dict object on the Python heap; `data =
dict(data)` allocates a NEW dict holding a copy, and the asset fields
are then assigned on the copy only.  The heap is modelled explicitly as
a list of dict cells addressed by index. -/

/-- A Python dict value: field name to string value (asset fields hold
path strings). -/
def Dict : Type := List (String × String)

/-- Dict field assignment `d[k] = v`. -/
def dictSet (d : Dict) (k v : String) : Dict :=
  (k, v) :: (d.filter fun p => p.1 != k)

/-- Dict field lookup `d.get(k)`. -/
def dictGet (d : Dict) (k : String) : Option String :=
  (d.find? fun p => p.1 == k).map (·.2)

/-- The heap of dict objects; a dict reference is an index. -/
structure DictHeap where
  cells : List Dict

/-- The asset-rewriting step of `render_and_compile_chief`: given the
caller's record at reference `r` and the resolved-and-copied basenames
for the banner and highlight assets (when resolved), allocate a copy of
the record (`data = dict(data)`), assign the asset fields on the copy,
and return the new heap and the copy's reference. -/
def chiefUpdateAssets (heap : DictHeap) (r : Nat)
    (banner highlight : Option String) : DictHeap × Nat :=
  let orig := heap.cells.getD r []
  let d1 :=
    match banner with
    | some b => dictSet orig "photo_banner_path" b
    | none => orig
  let d2 :=
    match highlight with
    | some h => dictSet d1 "highlight_path" h
    | none => d1
  ({ cells := heap.cells ++ [d2] }, heap.cells.length)

/-! ## Lemmas about the Escaper -/

theorem applyPasses_cons (f : Frag) (l : List Frag) :
    applyPasses (f :: l) = applyPasses [f] ++ applyPasses l := by
  simp [applyPasses, subPass]

theorem flattenFrags_append (a b : List Frag) :
    flattenFrags (a ++ b) = flattenFrags a ++ flattenFrags b := by
  simp [flattenFrags]

theorem escapeSpecSequential_cons (c : Char) (s : List Char) :
    escapeSpecSequential (c :: s) =
      flattenFrags (applyPasses [Frag.raw c]) ++ escapeSpecSequential s := by
  rw [escapeSpecSequential, List.map_cons, applyPasses_cons, flattenFrags_append,
    escapeSpecSequential]

theorem applyPasses_single_eq_escapeChar (c : Char) :
    flattenFrags (applyPasses [Frag.raw c]) = escapeChar c := by
  by_cases h1 : c = '\\'
  · subst h1; rfl
  by_cases h2 : c = '&'
  · subst h2; rfl
  by_cases h3 : c = '%'
  · subst h3; rfl
  by_cases h4 : c = '$'
  · subst h4; rfl
  by_cases h5 : c = '#'
  · subst h5; rfl
  by_cases h6 : c = '_'
  · subst h6; rfl
  by_cases h7 : c = '{'
  · subst h7; rfl
  by_cases h8 : c = '}'
  · subst h8; rfl
  by_cases h9 : c = '~'
  · subst h9; rfl
  by_cases h10 : c = '^'
  · subst h10; rfl
  simp [applyPasses, subPass, flattenFrags, escapeChar, h1, h2, h3, h4, h5, h6, h7, h8, h9, h10]

theorem escapeList_cons (c : Char) (s : List Char) :
    escapeList (c :: s) = escapeChar c ++ escapeList s := by
  simp [escapeList]

/-- C1: `latex_escape` maps `None` to the empty string, and on any string
it agrees with the claim's sequential-substitution description: backslash
substituted first, then the other nine special characters, text introduced
by a substitution never re-escaped, all other characters unchanged. -/
theorem latex_escape_matches_priority_spec :
    latex_escape none = [] ∧
      ∀ s : List Char, latex_escape (some s) = escapeSpecSequential s := by
  refine ⟨rfl, fun s => ?_⟩
  induction s with
  | nil => rfl
  | cons c s ih =>
    rw [latex_escape] at ih ⊢
    rw [escapeList_cons, escapeSpecSequential_cons, applyPasses_single_eq_escapeChar, ih]

theorem noUnescaped_escapeChar (c : Char) (u : List Char)
    (hu : NoUnescaped u) : NoUnescaped (escapeChar c ++ u) := by
  by_cases h1 : c = '\\'
  · subst h1; exact NoUnescaped.esc (by decide) hu
  by_cases h2 : c = '&'
  · subst h2; exact NoUnescaped.esc (by decide) hu
  by_cases h3 : c = '%'
  · subst h3; exact NoUnescaped.esc (by decide) hu
  by_cases h4 : c = '$'
  · subst h4; exact NoUnescaped.esc (by decide) hu
  by_cases h5 : c = '#'
  · subst h5; exact NoUnescaped.esc (by decide) hu
  by_cases h6 : c = '_'
  · subst h6; exact NoUnescaped.esc (by decide) hu
  by_cases h7 : c = '{'
  · subst h7; exact NoUnescaped.esc (by decide) hu
  by_cases h8 : c = '}'
  · subst h8; exact NoUnescaped.esc (by decide) hu
  by_cases h9 : c = '~'
  · subst h9; exact NoUnescaped.esc (by decide) hu
  by_cases h10 : c = '^'
  · subst h10; exact NoUnescaped.esc (by decide) hu
  have hesc : escapeChar c = [c] := by
    simp [escapeChar, h1, h2, h3, h4, h5, h6, h7, h8, h9, h10]
  have hspec : specialChar c = false := by
    simp [specialChar, h1, h2, h3, h4, h5, h6, h7, h8, h9, h10]
  rw [hesc, List.singleton_append]
  exact NoUnescaped.plain hspec hu

/-- C2: the output of the escaper never contains an unescaped occurrence
of any of the ten special characters: `escapeList s` always decomposes
into non-special characters and whole emitted escape sequences. -/
theorem escapeList_no_unescaped_specials (s : List Char) :
    NoUnescaped (escapeList s) := by
  induction s with
  | nil => exact NoUnescaped.nil
  | cons c s ih => rw [escapeList_cons]; exact noUnescaped_escapeChar c _ ih

/-- C10: the escaper is a monoid homomorphism for string concatenation:
it maps the empty string to the empty string and concatenation to
concatenation, so escaping fields separately agrees with escaping their
concatenation. -/
theorem escapeList_monoid_hom :
    escapeList [] = [] ∧
      ∀ s t : List Char, escapeList (s ++ t) = escapeList s ++ escapeList t := by
  refine ⟨rfl, fun s t => ?_⟩
  simp [escapeList]

/-! ## Lemmas about the filesystem model -/

theorem lookupFile_writeFile (fs : FS) (d n d' n' : String) (v : FileData) :
    lookupFile (writeFile fs d n v) d' n' =
      if d = d' ∧ n = n' then some v else lookupFile fs d' n' := by
  simp only [lookupFile, writeFile, List.find?]
  by_cases hd : d = d'
  · by_cases hn : n = n'
    · subst hd; subst hn; simp
    · have hb : (n == n') = false := beq_eq_false_iff_ne.mpr hn
      subst hd
      simp [hn, hb]
  · have hb : (d == d') = false := beq_eq_false_iff_ne.mpr hd
    simp [hd, hb]

/-! ## Build Orchestrator theorems -/

/-- C3: when the compiler exits non-zero, the build fails with a
`BuildError` whose log text contains the full captured combined output
and ends with the working-directory path, and the working directory with
its `main.tex` is left on disk, not deleted. -/
theorem build_failure_surfaces_log_and_keeps_workdir
    (tex : String) (env : BuildEnv) (fs : FS)
    (h : env.run.returncode ≠ 0) :
    (render_and_compile tex env fs).1 =
        BuildOutcome.buildError
          (runFailureMessage latexmkCmd env.run.output ++
            "\n\nTemp build folder: " ++ env.freshDir) ∧
      (∃ pre post : List Char,
        (runFailureMessage latexmkCmd env.run.output ++
            "\n\nTemp build folder: " ++ env.freshDir).data =
          pre ++ env.run.output.data ++ post) ∧
      (∃ pre : List Char,
        (runFailureMessage latexmkCmd env.run.output ++
            "\n\nTemp build folder: " ++ env.freshDir).data =
          pre ++ env.freshDir.data) ∧
      dirExists (render_and_compile tex env fs).2.1 env.freshDir = true ∧
      lookupFile (render_and_compile tex env fs).2.1 env.freshDir "main.tex" =
        some (FileData.text tex) := by
  refine ⟨?_, ?_, ?_, ?_, ?_⟩
  · simp [render_and_compile, h]
  · refine ⟨("Command failed:\n" ++ String.intercalate " " latexmkCmd ++
      "\n\n---- Build output ----\n").data,
      ("\n\nTemp build folder: " ++ env.freshDir).data, ?_⟩
    simp [runFailureMessage, String.data_append, List.append_assoc]
  · exact ⟨(runFailureMessage latexmkCmd env.run.output ++
      "\n\nTemp build folder: ").data, by simp [String.data_append]⟩
  · by_cases hp : env.run.producesPdf <;>
      simp [render_and_compile, h, hp, writeFile, dirExists]
  · by_cases hp : env.run.producesPdf <;>
      simp [render_and_compile, h, hp, lookupFile_writeFile]

/-- C4: when the compiler exits zero but no `main.pdf` was produced in
the (fresh, hence previously empty) working directory, the build fails
with the internal-invariant error, and exactly one compiler invocation
was attempted (no retry). -/
theorem missing_pdf_invariant_error_no_retry
    (tex : String) (env : BuildEnv) (fs : FS)
    (h0 : env.run.returncode = 0)
    (hp : env.run.producesPdf = false)
    (hnone : lookupFile fs env.freshDir "main.pdf" = none) :
    (render_and_compile tex env fs).1 =
        BuildOutcome.invariantError missingPdfMessage ∧
      (render_and_compile tex env fs).2.2 = [(latexmkCmd, env.freshDir)] := by
  have hnone1 : lookupFile { fs with dirs := env.freshDir :: fs.dirs }
      env.freshDir "main.pdf" = none := by
    simpa [lookupFile] using hnone
  constructor
  · simp [render_and_compile, h0, hp, lookupFile_writeFile, hnone1]
  · simp [render_and_compile, h0, hp]

/-- C5: a successful build uses the fresh working directory delivered by
the temp-directory primitive (not one existing before the call), writes
exactly the rendered source to `main.tex` inside it, and returns the
result record with the bytes read from `main.pdf` in that directory, the
input source text, and that directory's path. -/
theorem successful_build_fresh_dir_writes_tex_returns_result
    (tex : String) (env : BuildEnv) (fs : FS)
    (h0 : env.run.returncode = 0)
    (hp : env.run.producesPdf = true)
    (hfresh : fs.dirs.contains env.freshDir = false) :
    (render_and_compile tex env fs).1 =
        BuildOutcome.ok
          { pdf_bytes := env.run.pdfBytes, tex_str := tex, workdir := env.freshDir } ∧
      (render_and_compile tex env fs).2.1.dirs = env.freshDir :: fs.dirs ∧
      fs.dirs.contains env.freshDir = false ∧
      lookupFile (render_and_compile tex env fs).2.1 env.freshDir "main.tex" =
        some (FileData.text tex) := by
  refine ⟨?_, ?_, hfresh, ?_⟩
  · simp [render_and_compile, h0, hp, lookupFile_writeFile]
  · simp [render_and_compile, h0, hp, writeFile]
  · simp [render_and_compile, h0, hp, lookupFile_writeFile]

/-! ## Asset Resolver theorem -/

/-- C6: the resolver returns exactly the first existing candidate of the
fixed candidate list (explicit absolute path, explicit path under the
project root, explicit path under the template directory, default name
in the template directory, default name in the project root), and a
not-found signal (`none`, never an exception) when no candidate
exists. -/
theorem resolver_first_existing_candidate
    (pe : PathEnv) (maybe_path : Option String)
    (template_dir project_root default_name : String) :
    resolve_asset_path pe maybe_path template_dir project_root default_name =
      (assetCandidates pe maybe_path template_dir project_root default_name).find?
        pe.pathExists := by
  cases maybe_path with
  | none =>
    simp only [resolve_asset_path, assetCandidates, List.nil_append]
    split_ifs <;> simp_all [List.find?]
  | some p =>
    by_cases hp : p = ""
    · simp only [resolve_asset_path, assetCandidates, hp]
      split_ifs <;> simp_all [List.find?]
    · by_cases habs : isAbsolute p
      · simp only [resolve_asset_path, assetCandidates, hp, habs]
        split_ifs <;> simp_all [List.find?]
      · simp only [resolve_asset_path, assetCandidates, hp, habs]
        split_ifs <;> simp_all [List.find?]

/-! ## Asset copy theorem -/

/-- C7: copying a readable asset into the working directory stores its
contents byte-for-byte under the asset's base name (the directory
component is stripped), overwriting any existing file of that name, and
returns that base name. -/
theorem copy_asset_basename_overwrite
    (fs : FS) (assetDir assetName workdir : String) (d : FileData)
    (h : lookupFile fs assetDir assetName = some d) :
    copy_asset_to_workdir fs assetDir assetName workdir =
        Except.ok (writeFile fs workdir assetName d, assetName) ∧
      lookupFile (writeFile fs workdir assetName d) workdir assetName = some d := by
  constructor
  · rw [copy_asset_to_workdir, h]
  · simp [lookupFile_writeFile]

/-! ## Defensive-copy theorem -/

/-- C8: the asset-rewriting step of the chief renderer does not mutate
the caller's record: it allocates a copy, assigns the basenames on the
copy, and every previously existing heap cell — in particular the
caller's — is unchanged; the returned reference is a new one, distinct
from the caller's. -/
theorem chief_update_does_not_mutate_caller
    (heap : DictHeap) (r : Nat) (banner highlight : Option String)
    (h : r < heap.cells.length) :
    (∀ i, i < heap.cells.length →
        (chiefUpdateAssets heap r banner highlight).1.cells.getD i [] =
          heap.cells.getD i []) ∧
      (chiefUpdateAssets heap r banner highlight).2 ≠ r := by
  constructor
  · intro i hi
    simp only [chiefUpdateAssets, List.getD, List.get?_eq_getElem?]
    rw [List.getElem?_append_left hi]
  · simp only [chiefUpdateAssets]
    omega

/-! ## Workdir Lifecycle theorem -/

/-- C9: `cleanup_workdir` never raises: it returns normally for every
path and even when the deletion attempt errors (errors are swallowed),
and when the path is missing (not an existing directory) or empty it
does nothing at all. -/
theorem cleanup_never_raises
    (fs : FS) (workdir : String) (deleteFails : Bool)
    (h : dirExists fs workdir = false) :
    (∀ (w : String) (df : Bool), exceptOk (cleanup_workdir fs w df) = true) ∧
      cleanup_workdir fs workdir deleteFails = Except.ok fs := by
  constructor
  · intro w df
    unfold cleanup_workdir
    split <;> simp [exceptOk]
  · simp [cleanup_workdir, h]

/-! ## Concrete witnesses -/

/-- An empty filesystem. -/
def emptyFS : FS := { dirs := [], files := [] }

/-- A build environment whose compiler invocation fails. -/
def sampleFailEnv : BuildEnv :=
  { freshDir := "/tmp/cv_build_w0",
    run := { returncode := 1, output := "latexmk error log", producesPdf := false,
             pdfBytes := [] } }

/-- A build environment whose compiler exits zero without a PDF. -/
def sampleNoPdfEnv : BuildEnv :=
  { freshDir := "/tmp/cv_build_w1",
    run := { returncode := 0, output := "latexmk log", producesPdf := false,
             pdfBytes := [] } }

/-- A build environment whose compiler succeeds, leaving PDF bytes. -/
def sampleOkEnv : BuildEnv :=
  { freshDir := "/tmp/cv_build_w2",
    run := { returncode := 0, output := "latexmk log", producesPdf := true,
             pdfBytes := [37, 80, 68, 70] } }

/-- A filesystem holding one asset file. -/
def assetFS : FS :=
  { dirs := ["/assets"],
    files := [{ dir := "/assets", name := "banner.png",
                contents := FileData.bin [1, 2, 3] }] }

/-- A heap holding one caller-owned record. -/
def sampleHeap : DictHeap :=
  { cells := [[("photo_banner_path", "orig.png")]] }

theorem build_failure_surfaces_log_and_keeps_workdir_witness :
    sampleFailEnv.run.returncode ≠ 0 ∧
      ((render_and_compile "doc" sampleFailEnv emptyFS).1 =
          BuildOutcome.buildError
            (runFailureMessage latexmkCmd sampleFailEnv.run.output ++
              "\n\nTemp build folder: " ++ sampleFailEnv.freshDir) ∧
        (∃ pre post : List Char,
          (runFailureMessage latexmkCmd sampleFailEnv.run.output ++
              "\n\nTemp build folder: " ++ sampleFailEnv.freshDir).data =
            pre ++ sampleFailEnv.run.output.data ++ post) ∧
        (∃ pre : List Char,
          (runFailureMessage latexmkCmd sampleFailEnv.run.output ++
              "\n\nTemp build folder: " ++ sampleFailEnv.freshDir).data =
            pre ++ sampleFailEnv.freshDir.data) ∧
        dirExists (render_and_compile "doc" sampleFailEnv emptyFS).2.1
          sampleFailEnv.freshDir = true ∧
        lookupFile (render_and_compile "doc" sampleFailEnv emptyFS).2.1
          sampleFailEnv.freshDir "main.tex" = some (FileData.text "doc")) :=
  ⟨by decide,
    build_failure_surfaces_log_and_keeps_workdir "doc" sampleFailEnv emptyFS (by decide)⟩

theorem missing_pdf_invariant_error_no_retry_witness :
    (sampleNoPdfEnv.run.returncode = 0 ∧
        sampleNoPdfEnv.run.producesPdf = false ∧
        lookupFile emptyFS sampleNoPdfEnv.freshDir "main.pdf" = none) ∧
      ((render_and_compile "doc" sampleNoPdfEnv emptyFS).1 =
          BuildOutcome.invariantError missingPdfMessage ∧
        (render_and_compile "doc" sampleNoPdfEnv emptyFS).2.2 =
          [(latexmkCmd, sampleNoPdfEnv.freshDir)]) :=
  ⟨⟨by decide, by decide, rfl⟩,
    missing_pdf_invariant_error_no_retry "doc" sampleNoPdfEnv emptyFS
      (by decide) (by decide) rfl⟩

theorem successful_build_fresh_dir_writes_tex_returns_result_witness :
    (sampleOkEnv.run.returncode = 0 ∧
        sampleOkEnv.run.producesPdf = true ∧
        emptyFS.dirs.contains sampleOkEnv.freshDir = false) ∧
      ((render_and_compile "doc" sampleOkEnv emptyFS).1 =
          BuildOutcome.ok
            { pdf_bytes := sampleOkEnv.run.pdfBytes, tex_str := "doc",
              workdir := sampleOkEnv.freshDir } ∧
        (render_and_compile "doc" sampleOkEnv emptyFS).2.1.dirs =
          sampleOkEnv.freshDir :: emptyFS.dirs ∧
        emptyFS.dirs.contains sampleOkEnv.freshDir = false ∧
        lookupFile (render_and_compile "doc" sampleOkEnv emptyFS).2.1
          sampleOkEnv.freshDir "main.tex" = some (FileData.text "doc")) :=
  ⟨⟨by decide, by decide, rfl⟩,
    successful_build_fresh_dir_writes_tex_returns_result "doc" sampleOkEnv emptyFS
      (by decide) (by decide) rfl⟩

theorem copy_asset_basename_overwrite_witness :
    lookupFile assetFS "/assets" "banner.png" = some (FileData.bin [1, 2, 3]) ∧
      (copy_asset_to_workdir assetFS "/assets" "banner.png" "/tmp/cv_build_w2" =
          Except.ok
            (writeFile assetFS "/tmp/cv_build_w2" "banner.png" (FileData.bin [1, 2, 3]),
              "banner.png") ∧
        lookupFile (writeFile assetFS "/tmp/cv_build_w2" "banner.png" (FileData.bin [1, 2, 3]))
          "/tmp/cv_build_w2" "banner.png" = some (FileData.bin [1, 2, 3])) :=
  ⟨by decide,
    copy_asset_basename_overwrite assetFS "/assets" "banner.png" "/tmp/cv_build_w2"
      (FileData.bin [1, 2, 3]) (by decide)⟩

theorem chief_update_does_not_mutate_caller_witness :
    0 < sampleHeap.cells.length ∧
      ((∀ i, i < sampleHeap.cells.length →
          (chiefUpdateAssets sampleHeap 0 (some "banner.png") none).1.cells.getD i [] =
            sampleHeap.cells.getD i []) ∧
        (chiefUpdateAssets sampleHeap 0 (some "banner.png") none).2 ≠ 0) :=
  ⟨by decide,
    chief_update_does_not_mutate_caller sampleHeap 0 (some "banner.png") none (by decide)⟩

theorem cleanup_never_raises_witness :
    dirExists emptyFS "/tmp/cv_build_gone" = false ∧
      ((∀ (w : String) (df : Bool), exceptOk (cleanup_workdir emptyFS w df) = true) ∧
        cleanup_workdir emptyFS "/tmp/cv_build_gone" false = Except.ok emptyFS) :=
  ⟨rfl, cleanup_never_raises emptyFS "/tmp/cv_build_gone" false rfl⟩

end CvBuilder
